import Mathlib

/-!
# Verification of the jackrabbit AMQP convenience layer

A shallow embedding of the jackrabbit library (TypeScript rewrite in
`src/exchange.ts` / `src/queue.ts`, legacy JavaScript in `lib/exchange.js` /
`lib/queue.js` / `lib/jackrabbit.js`).  Each definition is translated from the
corresponding source function; external JS builtins (JSON.parse,
JSON.stringify, Buffer) and the amqplib collaborator are modelled as black
boxes at the granularity the source observes them.

JavaScript conventions used throughout the embedding:
* a possibly-`undefined` string is `Option String` (`none` = `undefined`);
* JS truthiness of such a value: `undefined` and `""` are falsy;
* a JS object used as a string-keyed record is an association list, with
  assignment modelled by prepending (lookup finds the most recent binding).
-/

/-- JavaScript values, at the granularity the library inspects them:
`JSON.parse` results (null / boolean / number / string / array / object),
`Buffer`s (raw message bodies) and `undefined`.  The library never looks
inside a parsed array or object (it only tests truthiness and passes the
value through), so those two are kept atomic here. -/
inductive JsValue where
  | vNull : JsValue
  | vBool : Bool → JsValue
  | vNum : Int → JsValue
  | vStr : String → JsValue
  | vArr : JsValue
  | vObj : JsValue
  | vBuffer : List Nat → JsValue
  | vUndefined : JsValue
deriving DecidableEq, Repr

/-- JavaScript truthiness (`ToBoolean`).  Every object — including an empty
array, an empty object and an *empty Buffer* — is truthy; `null`, `false`,
`0`, `""` and `undefined` are falsy. -/
def JsValue.truthy : JsValue → Bool
  | .vNull => false
  | .vBool b => b
  | .vNum n => n != 0
  | .vStr s => s != ""
  | .vArr => true
  | .vObj => true
  | .vBuffer _ => true
  | .vUndefined => false

/-- Truthiness of a `string | undefined` value: `undefined` and `""` are
falsy, every other string is truthy. -/
def jsTruthyStr : Option String → Bool
  | none => false
  | some s => s != ""

/-- `a || b` on a `string | undefined` left operand with a string fallback,
as in `name || DEFAULT_EXCHANGES[type]`. -/
def jsStrOr (a : Option String) (b : String) : String :=
  match a with
  | none => b
  | some s => if s = "" then b else s

/-! ## Exchange name resolution (`src/exchange.ts`, constructor) -/

namespace Exchange

/-- `Exchange.DEFAULT_EXCHANGES`: the static table of well-known default
exchange names, one per built-in type; absent for any other type
(`DEFAULT_EXCHANGES[type]` is `undefined`). -/
def DEFAULT_EXCHANGES : String → Option String
  | "direct" => some "amq.direct"
  | "fanout" => some "amq.fanout"
  | "topic" => some "amq.topic"
  | _ => none

/-- `isDefaultType`: membership of `type` in `["direct", "fanout", "topic"]`. -/
def isDefaultType (type : String) : Bool :=
  ["direct", "fanout", "topic"].contains type

/-- `isNameless`: the name is the empty string (the broker's built-in
nameless/default exchange). -/
def isNameless (name : Option String) : Bool :=
  name = some ""

/-- `isDefault(name, type)`: the name is exactly the well-known default name
for `type`. -/
def isDefault (name : String) (type : String) : Bool :=
  isDefaultType type && DEFAULT_EXCHANGES type = some name

/-- The synchronous name-resolution of the `Exchange` constructor
(`src/exchange.ts` lines 79–93).  `name` is `string | undefined`
(`none` = omitted), `type` is a string whose falsy value is `""` (a missing
type).  `Except.error` models the synchronously thrown validation error; no
network request is issued on either path. -/
def resolveName (name : Option String) (type : String) : Except String String :=
  if type = "" then .error "missing exchange type"
  else if isNameless name then .ok ""
  else
    let resolved := jsStrOr name (if isDefaultType type then (DEFAULT_EXCHANGES type).getD "" else "")
    if resolved = "" then .error "missing exchange name" else .ok resolved

end Exchange

/-! ## Deferred publishing (`src/exchange.ts`, `publish`, lines 152–177)

`publish` increments the in-flight counter, then either sends immediately
(when `#ready` is already true) or registers `sendMessage` with
`once("ready", …)`.  Node's `EventEmitter` stores `once`-listeners in
registration order and removes each listener before invoking it when the
event fires, so a single `"ready"` emission drains the registered deferred
sends exactly once, in FIFO order.  We record a deferred send by the message
it would send. -/

/-- A message handed to `publish`, abstractly: the payload together with the
options that determine the outgoing frame. -/
structure QueuedPublish where
  payload : JsValue
  key : Option String
deriving DecidableEq, Repr

/-- The publishing-relevant state of an `Exchange`: the `#ready` flag, the
`once("ready")` listener list holding the deferred `sendMessage` closures in
registration order, the in-flight counter `#publishing`, and the sequence of
messages actually handed to `channel.publish`, in order. -/
structure PubState where
  ready : Bool
  pendingSends : List QueuedPublish
  publishing : Nat
  sent : List QueuedPublish
deriving DecidableEq, Repr

/-- The state of a freshly constructed exchange: not ready, no deferred
sends, nothing sent. -/
def PubState.init : PubState :=
  { ready := false, pendingSends := [], publishing := 0, sent := [] }

/-- `Exchange.publish` (src/exchange.ts lines 152–156): increment
`#publishing`; if ready, run `sendMessage` now (the message goes to
`channel.publish`); otherwise register `sendMessage` with
`once("ready", …)`. -/
def PubState.publish (s : PubState) (m : QueuedPublish) : PubState :=
  if s.ready then
    { s with publishing := s.publishing + 1, sent := s.sent ++ [m] }
  else
    { s with publishing := s.publishing + 1, pendingSends := s.pendingSends ++ [m] }

/-- The `"ready"` emission (from `isReady` in `onExchange`): sets `#ready`
and fires the `once("ready")` listeners in registration order, each removed
before it runs, so every deferred `sendMessage` executes exactly once and the
listener list is left empty. -/
def PubState.fireReady (s : PubState) : PubState :=
  { s with ready := true, pendingSends := [], sent := s.sent ++ s.pendingSends }

/-- A sequence of `publish` calls, in order. -/
def PubState.publishAll (s : PubState) (ms : List QueuedPublish) : PubState :=
  ms.foldl PubState.publish s

/-! ## `sendMessage` and the pending-reply table (`src/exchange.ts` 158–186)

Reply callbacks are modelled by an identifier (`Nat`); `#pendingReplies` — a
plain JS object keyed by correlation id — is an association list where
assignment prepends and lookup finds the most recent binding.  `uuid.v4()` is
an external generator; the id it returns for one `sendMessage` call is passed
in as the `freshId` argument. -/

/-- Lookup `record[key]` for a JS object keyed by strings, with a
`string | undefined` key (`record[undefined]` finds nothing unless the
literal key `"undefined"` was stored, which the library never does). -/
def recordGet (record : List (String × Nat)) (key : Option String) : Option Nat :=
  match key with
  | none => none
  | some s => (record.find? (fun p => p.1 = s)).map (fun p => p.2)

/-- The publish options recognised by `Exchange.publish`
(`DEFAULT_PUBLISH_OPTIONS` fields that the embedding tracks, plus `key`,
`reply`, `replyTo`, `correlationId`).  `none` is an absent property. -/
structure PublishOptions where
  contentType : Option String := none
  mandatory : Option Bool := none
  persistent : Option Bool := none
  key : Option String := none
  reply : Option Nat := none
  replyTo : Option String := none
  correlationId : Option String := none
deriving DecidableEq, Repr

/-- `_.extend({}, Exchange.DEFAULT_PUBLISH_OPTIONS, options)`: a present
property of `options` wins; an absent one falls back to the default
(`contentType: "application/json"`, `mandatory: false`, `persistent: false`;
the remaining defaults are `undefined`). -/
def mergePublishOptions (options : PublishOptions) : PublishOptions :=
  { contentType := match options.contentType with
      | some c => some c
      | none => some "application/json"
    mandatory := match options.mandatory with
      | some b => some b
      | none => some false
    persistent := match options.persistent with
      | some b => some b
      | none => some false
    key := options.key
    reply := options.reply
    replyTo := options.replyTo
    correlationId := options.correlationId }

/-- The body handed to `channel.publish`: `JSON.stringify(message)` for JSON
content (kept symbolic as the serialised value) or the message passed through
unmodified. -/
inductive Encoded where
  | jsonText : JsValue → Encoded
  | rawVal : JsValue → Encoded
deriving DecidableEq, Repr

namespace Exchange

/-- `Exchange.encodeMessage` (src/exchange.ts 179–182): serialise as JSON
when the content type is `application/json`, otherwise pass through. -/
def encodeMessage (message : JsValue) (contentType : Option String) : Encoded :=
  if contentType = some "application/json" then .jsonText message else .rawVal message

end Exchange

/-- The reference an `Exchange` holds to its hidden reply queue: only the
queue's `name` field (`string | undefined` until the declare completes) is
read by `sendMessage`. -/
structure QueueRef where
  name : Option String
deriving DecidableEq, Repr

/-- One frame handed to `channel.publish(this.name, opts.key, buffer, opts)`. -/
structure ChannelPublish where
  exchange : String
  routingKey : Option String
  body : Encoded
  opts : PublishOptions
deriving DecidableEq, Repr

/-- The result of one `sendMessage` run: the published frame and the
pending-reply table afterwards. -/
structure SendOutcome where
  frame : ChannelPublish
  pendingReplies : List (String × Nat)
deriving DecidableEq, Repr

namespace Exchange

/-- The `sendMessage` closure inside `Exchange.publish` (src/exchange.ts
158–176): merge the default publish options, encode the message, and — when
`opts.reply` is set — generate a correlation id (`freshId` stands for the
`uuid.v4()` result), store the callback under it, set `opts.replyTo` to the
reply queue's name and `opts.correlationId` to the id, and delete
`opts.reply` before the underlying publish.  `replyQueue` is
`this.#replyQueue`, which is `null` on a `noReply` exchange; the source reads
`this.#replyQueue!.name` there, so a reply requested on such an exchange
raises a `TypeError` (`Except.error`) instead of publishing. -/
def sendMessage (exName : String) (replyQueue : Option QueueRef)
    (pending : List (String × Nat)) (freshId : String)
    (message : JsValue) (options : PublishOptions) : Except String SendOutcome :=
  let opts := mergePublishOptions options
  let msg := encodeMessage message opts.contentType
  match opts.reply with
  | some cb =>
    match replyQueue with
    | none => .error "TypeError: cannot read properties of null"
    | some rq =>
      let opts2 := { opts with replyTo := rq.name, correlationId := some freshId, reply := none }
      .ok { frame := { exchange := exName, routingKey := opts2.key, body := msg, opts := opts2 },
            pendingReplies := (freshId, cb) :: pending }
  | none =>
    .ok { frame := { exchange := exName, routingKey := opts.key, body := msg, opts := opts },
          pendingReplies := pending }

end Exchange

/-- The reply-dispatch state of an exchange: the pending-reply table and the
record of callback invocations performed so far (callback id with the data it
received), in order. -/
structure ReplyDispatch where
  pendingReplies : List (String × Nat)
  calls : List (Nat × JsValue)
deriving DecidableEq, Repr

namespace Exchange

/-- `Exchange.onReply` (src/exchange.ts 184–186): the reply queue delivered a
message; look up `#pendingReplies[msg.properties.correlationId]` and invoke
the callback with the decoded data when present (`?.` makes a missing entry a
silent no-op).  The source never deletes the entry, so the table is returned
unchanged. -/
def onReply (s : ReplyDispatch) (correlationId : Option String) (data : JsValue) : ReplyDispatch :=
  match recordGet s.pendingReplies correlationId with
  | some cb => { s with calls := s.calls ++ [(cb, data)] }
  | none => s

end Exchange

/-! ## Exchange readiness lifecycle (`src/exchange.ts` 99–107, 203–234)

`connect` issues `createChannel(onChannel)`.  `onChannel` stores the channel,
emits `"connected"`, and either treats the declare as done (well-known
default name or the nameless exchange) or issues
`assertExchange(…, onExchange)`.  `onExchange`, for an exchange with a reply
queue, connects the reply queue and registers `isReady` on its `"ready"`
event; otherwise it runs `isReady` at once.  `isReady` sets `#ready` and
emits `"ready"`.  The reply queue itself (src/queue.ts 67–80) becomes ready
only after its own channel opened and its `assertQueue` completed.

Each completion the external broker can deliver is an event; a completion
whose request was never issued (or already answered) cannot occur, so the
step function leaves the state unchanged there.  Flags are historical: they
record that the corresponding completion has happened. -/

/-- Lifecycle flags of the hidden reply queue. -/
structure QueueLife where
  channelOpen : Bool
  ready : Bool
deriving DecidableEq, Repr

/-- Lifecycle flags of an exchange.  `declared` records that the
declare-exchange call completed or was skipped; `replyConnectIssued` that
`onExchange` called `replyQueue.connect`; `closed` that `bail` ran. -/
structure ExchangeLife where
  channelOpened : Bool
  declared : Bool
  replyConnectIssued : Bool
  replyQ : QueueLife
  ready : Bool
  closed : Bool
deriving DecidableEq, Repr

/-- Completions and failures the broker can deliver to one exchange and its
reply queue. -/
inductive LifeEvent where
  | channelOk | channelErr
  | exchangeOk | exchangeErr
  | replyChannelOk | replyQueueOk
  | channelClose
deriving DecidableEq, Repr

namespace ExchangeLife

/-- The freshly constructed exchange: nothing has completed. -/
def start : ExchangeLife :=
  { channelOpened := false, declared := false, replyConnectIssued := false,
    replyQ := { channelOpen := false, ready := false }, ready := false, closed := false }

/-- `bail` (src/exchange.ts 188–192): clear the connection and channel
references and emit `"close"`.  The historical flags stay. -/
def bail (s : ExchangeLife) : ExchangeLife :=
  { s with closed := true }

/-- The success path of `onExchange` (src/exchange.ts 220–234): with a reply
queue, connect it and wait for its `"ready"`; without one, become ready at
once. -/
def onExchangeOk (hasReply : Bool) (s : ExchangeLife) : ExchangeLife :=
  if hasReply then { s with declared := true, replyConnectIssued := true }
  else { s with declared := true, ready := true }

/-- One broker completion.  `hasReply` is `!options.noReply` (a reply queue
exists); `skipDeclare` is `isDefault(name, type) || isNameless(name)` (the
declare-exchange call is skipped and `onExchange` runs directly inside
`onChannel`). -/
def step (hasReply skipDeclare : Bool) (s : ExchangeLife) (e : LifeEvent) : ExchangeLife :=
  match e with
  | .channelOk =>
    if s.channelOpened then s
    else
      let s1 := { s with channelOpened := true }
      if skipDeclare then s1.onExchangeOk hasReply else s1
  | .channelErr =>
    if s.channelOpened then s else s.bail
  | .exchangeOk =>
    if s.channelOpened && !skipDeclare && !s.declared then s.onExchangeOk hasReply else s
  | .exchangeErr =>
    if s.channelOpened && !skipDeclare && !s.declared then s.bail else s
  | .replyChannelOk =>
    if s.replyConnectIssued && !s.replyQ.channelOpen then
      { s with replyQ := { s.replyQ with channelOpen := true } }
    else s
  | .replyQueueOk =>
    if s.replyQ.channelOpen && !s.replyQ.ready then
      { s with replyQ := { s.replyQ with ready := true }, ready := true }
    else s
  | .channelClose =>
    if s.channelOpened then s.bail else s

/-- Run a sequence of broker completions from the initial state. -/
def run (hasReply skipDeclare : Bool) (events : List LifeEvent) : ExchangeLife :=
  events.foldl (step hasReply skipDeclare) start

/-- The readiness invariant: whenever `#ready` is set, the exchange's channel
has been opened, its declare completed (or was skipped), and — when a reply
queue exists — that reply queue has emitted its own `"ready"`; with the
auxiliary facts that make the invariant inductive. -/
def Inv (hasReply : Bool) (s : ExchangeLife) : Bool :=
  (!s.ready || (s.channelOpened && s.declared && (!hasReply || s.replyQ.ready))) &&
  (!s.declared || s.channelOpened) &&
  (!s.replyConnectIssued || (s.declared && hasReply)) &&
  (!s.replyQ.channelOpen || s.replyConnectIssued) &&
  (!s.replyQ.ready || s.replyQ.channelOpen)

end ExchangeLife

/-! ## Message decoding and delivery (`src/queue.ts` 82–150, `lib/queue.js` 92–198)

`msg.content` is a `Buffer`; for JSON content the source runs
`JSON.parse(msg.content.toString())`.  `JSON.parse` is a JS builtin treated
as a black box: a body carries its bytes together with the parse outcome of
its text (`none` = the text is not valid JSON, where `JSON.parse` throws a
`SyntaxError`). -/

/-- A message body: the raw bytes and the `JSON.parse` outcome of the body's
text. -/
structure MsgContent where
  bytes : List Nat
  parsed : Option JsValue
deriving DecidableEq, Repr

/-- `JSON.parse(content.toString())`: the parsed value, or a thrown
`SyntaxError` for malformed text. -/
def jsonParse (content : MsgContent) : Except String JsValue :=
  match content.parsed with
  | some v => .ok v
  | none => .error "SyntaxError: unexpected token"

/-- The message properties the library reads. -/
structure MsgProperties where
  contentType : Option String := none
  replyTo : Option String := none
  correlationId : Option String := none
deriving DecidableEq, Repr

/-- A delivered amqplib message. -/
structure AmqpMessage where
  properties : MsgProperties
  content : MsgContent
deriving DecidableEq, Repr

namespace Queue

/-- `Queue.parseMessage` (src/queue.ts 144–150): `JSON.parse` the body for
JSON content — with **no** try/catch, so a malformed body makes the method
throw (`Except.error`) — and return the raw `Buffer` otherwise. -/
def parseMessage (msg : AmqpMessage) : Except String JsValue :=
  if msg.properties.contentType = some "application/json" then jsonParse msg.content
  else .ok (.vBuffer msg.content.bytes)

end Queue

/-- A local notification emitted on a queue while handling one delivery. -/
inductive QueueSignal where
  | errorSignal (message : String)
deriving DecidableEq, Repr

/-- `parseMessage` of the legacy `lib/queue.js` (lines 188–198): the
`JSON.parse` is wrapped in try/catch; on failure it emits a local `"error"`
notification and returns `undefined` (`none`). -/
def legacyParseMessage (msg : AmqpMessage) : Option JsValue × List QueueSignal :=
  if msg.properties.contentType = some "application/json" then
    match jsonParse msg.content with
    | .ok v => (some v, [])
    | .error _ => (none, [.errorSignal "unable to parse message as JSON"])
  else (some (.vBuffer msg.content.bytes), [])

/-- What happened to one delivered message inside the `onMessage` handler. -/
inductive DeliveryOutcome where
  | dropped
  | thrown (e : String)
  | delivered (data : JsValue)
deriving DecidableEq, Repr

namespace Queue

/-- The `onMessage` delivery handler of `Queue.consume` (src/queue.ts
94–99), up to the invocation of the consumer callback: a `null` message is
ignored; the body is decoded by `parseMessage` (whose exception, if any,
escapes the handler); a falsy decoded value returns without invoking the
callback (and without ack or nack); otherwise the callback is invoked with
the decoded data. -/
def onMessage (msg : Option AmqpMessage) : DeliveryOutcome :=
  match msg with
  | none => .dropped
  | some m =>
    match parseMessage m with
    | .error e => .thrown e
    | .ok data => if data.truthy then .delivered data else .dropped

end Queue

/-- The `onMessage` handler of the legacy `lib/queue.js` (lines 103–107):
no `null` guard, `parseMessage` catches its own parse failure (emitting the
local error signal and yielding `undefined`), falsy data returns without
invoking the callback. -/
def legacyOnMessage (msg : AmqpMessage) : DeliveryOutcome × List QueueSignal :=
  match legacyParseMessage msg with
  | (none, sigs) => (.dropped, sigs)
  | (some data, sigs) =>
    if data.truthy then (.delivered data, sigs) else (.dropped, sigs)

/-! ## `ack` (`src/queue.ts` 101–116) -/

/-- A reply body produced by `Queue.encodeMessage`:
`Buffer.from(JSON.stringify(v))` kept symbolic, or a `Buffer` passed
through. -/
inductive ReplyBody where
  | jsonBuffer (v : JsValue)
  | rawBuffer (bytes : List Nat)
deriving DecidableEq, Repr

namespace Queue

/-- `Queue.encodeMessage` (src/queue.ts 134–142): for JSON content,
`Buffer.from(JSON.stringify(message))` — where `JSON.stringify(undefined)`
is `undefined` and `Buffer.from(undefined)` throws a `TypeError`; otherwise
a `Buffer` message passes through and anything else throws
`"Unsupported message type for encoding"`. -/
def encodeMessage (message : JsValue) (contentType : Option String) : Except String ReplyBody :=
  if contentType = some "application/json" then
    match message with
    | .vUndefined => .error "TypeError: argument of Buffer.from is undefined"
    | v => .ok (.jsonBuffer v)
  else
    match message with
    | .vBuffer bs => .ok (.rawBuffer bs)
    | _ => .error "Unsupported message type for encoding"

end Queue

/-- The channel interactions one `ack(reply?)` call performs, in order.
`thrownOp` records an exception escaping `ack` (nothing after it runs). -/
inductive ChannelOp where
  | publishOp (exchange : String) (routingKey : String) (body : ReplyBody)
      (correlationId : String) (contentType : Option String)
  | ackOp
  | thrownOp (e : String)
deriving DecidableEq, Repr

namespace Queue

/-- The `ack` closure handed to the consumer callback (src/queue.ts
101–112): when the message's `replyTo` and `correlationId` are both truthy,
encode the reply (the argument, or `undefined` when `ack()` is called with
none) per the message's content type and publish it to the nameless
exchange — routing key `replyTo`, the same correlation id and content
type — then acknowledge the message; otherwise just acknowledge.  An
exception from `encodeMessage` escapes before the acknowledgment. -/
def ackMessage (msg : AmqpMessage) (reply : Option JsValue) : List ChannelOp :=
  let replyTo := msg.properties.replyTo
  let id := msg.properties.correlationId
  if jsTruthyStr replyTo && jsTruthyStr id then
    match encodeMessage (reply.getD .vUndefined) msg.properties.contentType with
    | .ok buffer =>
      [.publishOp "" (replyTo.getD "") buffer (id.getD "") msg.properties.contentType, .ackOp]
    | .error e => [.thrownOp e]
  else [.ackOp]

end Queue

/-! ## Queue creation and key binding (`src/exchange.ts` 110–150) -/

/-- The routing keys requested by one queue creation:
`(options?.keys || [options?.key]).filter(Boolean)`.  `options.keys`, when
present, is an array (truthy even when empty, so it wins over `[key]`);
`filter(Boolean)` drops `undefined` and empty-string entries. -/
def resolveBindingKeys (keys : Option (List String)) (key : Option String) : List String :=
  let arr : List (Option String) :=
    match keys with
    | some ks => ks.map some
    | none => [key]
  arr.filterMap (fun k =>
    match k with
    | some s => if s = "" then none else some s
    | none => none)

/-- `Promise.all(keys.map(bindKey))` at the granularity the caller observes:
fulfilled when every `bindQueue` completion succeeded, rejected with a
binding's error when any failed.  (Which rejection wins when several fail is
timing-dependent in the source; only the aggregate outcome is observable.) -/
def bindKeysResult (binds : String → Except String Unit) (keys : List String) : Except String Unit :=
  keys.foldr
    (fun k acc =>
      match binds k with
      | .error e => .error e
      | .ok _ => acc)
    (.ok ())

/-- Events observable from one queue-creation's binding phase. -/
inductive BindEvent where
  | boundEvt
  | closeEvt (err : String)
deriving DecidableEq, Repr

namespace Exchange

/-- The `once("ready")` handler installed on a queue created through
`Exchange.queue` (src/exchange.ts 113–123): on the nameless exchange no
binding happens (implicit bindings); otherwise every resolved key is bound
via `#bindKeys`, and the queue's `"bound"` is emitted once when all bindings
succeeded, while any failure instead routes to `bail`, which emits the
exchange's `"close"`. -/
def onQueueReady (exName : String) (binds : String → Except String Unit)
    (keys : Option (List String)) (key : Option String) : List BindEvent :=
  if exName = "" then []
  else
    match bindKeysResult binds (resolveBindingKeys keys key) with
    | .ok _ => [.boundEvt]
    | .error e => [.closeEvt e]

end Exchange

/-! ## Connection-manager `close` (`src/exchange.ts` 273–286 of the rewrite,
`lib/jackrabbit.js` 50–62)

`close(callback)` calls `this.#connection?.close(cb)`; when the underlying
close completes with `err`, `cb` invokes the caller-supplied handler with
`err` and then emits `"close"`.  Independently, the `amqplib` connection
emits its own `"close"` event when the connection shuts down, which runs the
`#bail` handler registered at connection time: it clears `#connection` (and
`#channel`) and emits `"error"`.  The relative order of the two amqplib
callbacks is internal to amqplib, so runs in both orders are modelled. -/

/-- Actions observable on the connection manager. -/
inductive JackAction where
  | callbackCall (err : Option String)
  | closeEvt
  | errorEvt (err : Option String)
deriving DecidableEq, Repr

/-- The state the claims read: whether `#connection` is set. -/
structure JackState where
  connection : Option Unit
deriving DecidableEq, Repr

namespace Jackrabbit

/-- One full `close(callback)` interaction.  With no connection,
`?.` short-circuits: nothing runs and nothing is emitted.  With a
connection, the underlying close completes with `err` (possibly `none`),
invoking the close callback (caller handler, then `"close"` emission) and
firing the connection's `"close"` event (the `#bail` handler: clear the
reference, emit `"error"` with the event's argument `bailErr`);
`callbackFirst` selects the amqplib-internal order of the two. -/
def closeRun (s : JackState) (err bailErr : Option String) (callbackFirst : Bool) :
    JackState × List JackAction :=
  match s.connection with
  | none => (s, [])
  | some _ =>
    let cbActs : List JackAction := [.callbackCall err, .closeEvt]
    let bailActs : List JackAction := [.errorEvt bailErr]
    ({ connection := none },
     if callbackFirst then cbActs ++ bailActs else bailActs ++ cbActs)

end Jackrabbit

/-! # Theorems -/

/-! ## Helper lemmas -/

theorem PubState.publishAll_not_ready (ms : List QueuedPublish) (s : PubState)
    (h : s.ready = false) :
    (s.publishAll ms).ready = false ∧
    (s.publishAll ms).pendingSends = s.pendingSends ++ ms ∧
    (s.publishAll ms).sent = s.sent := by
  induction ms generalizing s with
  | nil => exact ⟨h, by simp [PubState.publishAll], rfl⟩
  | cons m ms ih =>
    have hstep : s.publish m =
        { s with publishing := s.publishing + 1, pendingSends := s.pendingSends ++ [m] } := by
      simp [PubState.publish, h]
    have hr : (s.publish m).ready = false := by rw [hstep]; exact h
    obtain ⟨h1, h2, h3⟩ := ih (s.publish m) hr
    refine ⟨?_, ?_, ?_⟩
    · simpa [PubState.publishAll] using h1
    · have : (s.publish m).pendingSends = s.pendingSends ++ [m] := by rw [hstep]
      simp only [PubState.publishAll] at h2 ⊢
      rw [List.foldl_cons, h2, this, List.append_assoc]
      rfl
    · have : (s.publish m).sent = s.sent := by rw [hstep]
      simp only [PubState.publishAll] at h3 ⊢
      rw [List.foldl_cons, h3, this]

/-! ## C1 — deferred publishing is FIFO and exactly-once -/

/-- C1: starting from a freshly constructed exchange (not yet ready), any
sequence of `publish` calls sends nothing before `"ready"`; when `"ready"`
fires, the deferred sends run exactly once, in the order the publishes were
issued (the sent sequence equals the published sequence — nothing lost,
nothing duplicated); a further `"ready"` emission resends nothing, and a
publish issued after readiness is sent immediately at the tail of the
order. -/
theorem publish_before_ready_fifo_exactly_once (ms : List QueuedPublish) (m : QueuedPublish) :
    (PubState.init.publishAll ms).sent = [] ∧
    ((PubState.init.publishAll ms).fireReady).sent = ms ∧
    ((PubState.init.publishAll ms).fireReady).pendingSends = [] ∧
    (((PubState.init.publishAll ms).fireReady).fireReady).sent = ms ∧
    ((((PubState.init.publishAll ms).fireReady).publish m)).sent = ms ++ [m] := by
  obtain ⟨hr, hp, hs⟩ := PubState.publishAll_not_ready ms PubState.init rfl
  have hp0 : (PubState.init.publishAll ms).pendingSends = ms := by simpa [PubState.init] using hp
  have hs0 : (PubState.init.publishAll ms).sent = [] := by simpa [PubState.init] using hs
  refine ⟨hs0, ?_, ?_, ?_, ?_⟩
  · simp [PubState.fireReady, hp0, hs0]
  · simp [PubState.fireReady]
  · simp [PubState.fireReady, hp0, hs0]
  · simp [PubState.fireReady, PubState.publish, hp0, hs0]

/-! ## C8 — exchange name resolution -/

/-- C8: constructing with type `direct` / `fanout` / `topic` and no name
yields the fixed well-known default name; an explicit non-empty name is kept
exactly, for every non-missing type; the empty-string name stays empty
regardless of type; and a missing/falsy type is a synchronous validation
error (the constructor throws before any network call). -/
theorem exchange_name_resolution :
    Exchange.resolveName none "direct" = .ok "amq.direct" ∧
    Exchange.resolveName none "fanout" = .ok "amq.fanout" ∧
    Exchange.resolveName none "topic" = .ok "amq.topic" ∧
    (∀ type nm, type ≠ "" → nm ≠ "" → Exchange.resolveName (some nm) type = .ok nm) ∧
    (∀ type, type ≠ "" → Exchange.resolveName (some "") type = .ok "") ∧
    (∀ nm, Exchange.resolveName nm "" = .error "missing exchange type") := by
  refine ⟨rfl, rfl, rfl, ?_, ?_, ?_⟩
  · intro type nm htype hnm
    simp [Exchange.resolveName, Exchange.isNameless, jsStrOr, htype, hnm]
  · intro type htype
    simp [Exchange.resolveName, Exchange.isNameless, htype]
  · intro nm
    simp [Exchange.resolveName]

/-- Witness for C8: the quantified parts of `exchange_name_resolution`
evaluated at the inputs the repository's own tests use. -/
theorem exchange_name_resolution_witness :
    Exchange.resolveName (some "foobar.direct") "direct" = .ok "foobar.direct" ∧
    Exchange.resolveName (some "") "topic" = .ok "" ∧
    Exchange.resolveName none "" = .error "missing exchange type" :=
  ⟨exchange_name_resolution.2.2.2.1 "direct" "foobar.direct" (by decide) (by decide),
   exchange_name_resolution.2.2.2.2.1 "topic" (by decide),
   exchange_name_resolution.2.2.2.2.2 none⟩

/-! ## C2 — readiness gating -/

theorem ExchangeLife.inv_start (hasReply : Bool) :
    ExchangeLife.Inv hasReply ExchangeLife.start = true := by
  cases hasReply <;> decide

theorem ExchangeLife.inv_step (hasReply skipDeclare : Bool) (s : ExchangeLife) (e : LifeEvent)
    (h : ExchangeLife.Inv hasReply s = true) :
    ExchangeLife.Inv hasReply (ExchangeLife.step hasReply skipDeclare s e) = true := by
  rcases s with ⟨co, de, ri, ⟨qc, qr⟩, ry, cl⟩
  revert h
  cases e <;> revert co de ri qc qr ry cl <;> cases hasReply <;> cases skipDeclare <;> decide

theorem ExchangeLife.inv_run_from (hasReply skipDeclare : Bool) (events : List LifeEvent)
    (s : ExchangeLife) (h : ExchangeLife.Inv hasReply s = true) :
    ExchangeLife.Inv hasReply (events.foldl (ExchangeLife.step hasReply skipDeclare) s) = true := by
  induction events generalizing s with
  | nil => exact h
  | cons e es ih => exact ih _ (ExchangeLife.inv_step hasReply skipDeclare s e h)

/-- C2: for every exchange configuration (with or without a reply queue,
declare issued or skipped for the nameless/default exchange) and every
sequence of broker completions, whenever the `#ready` flag is set — i.e. at
and after the `"ready"` emission — the exchange's channel has been opened,
its declare-exchange call has completed (or was skipped), and, when a reply
queue exists, that reply queue has emitted its own `"ready"`; so `"ready"`
is never emitted before all of these hold. -/
theorem ready_only_after_channel_declare_reply (hasReply skipDeclare : Bool)
    (events : List LifeEvent)
    (h : (ExchangeLife.run hasReply skipDeclare events).ready = true) :
    (ExchangeLife.run hasReply skipDeclare events).channelOpened = true ∧
    (ExchangeLife.run hasReply skipDeclare events).declared = true ∧
    (hasReply = true → (ExchangeLife.run hasReply skipDeclare events).replyQ.ready = true) := by
  have hinv : ExchangeLife.Inv hasReply (ExchangeLife.run hasReply skipDeclare events) = true :=
    ExchangeLife.inv_run_from hasReply skipDeclare events ExchangeLife.start
      (ExchangeLife.inv_start hasReply)
  revert h hinv
  generalize ExchangeLife.run hasReply skipDeclare events = s
  rcases s with ⟨co, de, ri, ⟨qc, qr⟩, ry, cl⟩
  revert co de ri qc qr ry cl
  cases hasReply <;> decide

/-- Witness for C2: the full success path of an exchange with a reply queue
and a real declare — channel opened, exchange declared, reply-queue channel
opened, reply queue declared — ends ready, with every gating condition
observed. -/
theorem ready_only_after_channel_declare_reply_witness :
    (ExchangeLife.run true false
        [.channelOk, .exchangeOk, .replyChannelOk, .replyQueueOk]).ready = true ∧
    ((ExchangeLife.run true false
        [.channelOk, .exchangeOk, .replyChannelOk, .replyQueueOk]).channelOpened = true ∧
     (ExchangeLife.run true false
        [.channelOk, .exchangeOk, .replyChannelOk, .replyQueueOk]).declared = true ∧
     (true = true → (ExchangeLife.run true false
        [.channelOk, .exchangeOk, .replyChannelOk, .replyQueueOk]).replyQ.ready = true)) :=
  ⟨by decide,
   ready_only_after_channel_declare_reply true false
     [.channelOk, .exchangeOk, .replyChannelOk, .replyQueueOk] (by decide)⟩

/-! ## C3 — publish with a reply callback -/

/-- C3: a `sendMessage` whose options carry a reply callback (on an exchange
that has a reply queue) uses the freshly generated correlation id for the
outgoing message, stores the callback in the pending-reply table under that
id, sets the outgoing `replyTo` to the reply queue's name and
`correlationId` to the id, and strips the `reply` option from the options
passed to the underlying `channel.publish`. -/
theorem publish_with_reply_callback (exName : String) (rq : QueueRef)
    (pending : List (String × Nat)) (freshId : String) (message : JsValue)
    (options : PublishOptions) (cb : Nat) (h : options.reply = some cb) :
    ∃ out, Exchange.sendMessage exName (some rq) pending freshId message options = .ok out ∧
      out.frame.opts.correlationId = some freshId ∧
      out.frame.opts.replyTo = rq.name ∧
      out.frame.opts.reply = none ∧
      out.pendingReplies = (freshId, cb) :: pending ∧
      recordGet out.pendingReplies (some freshId) = some cb := by
  have hm : (mergePublishOptions options).reply = some cb := h
  have heq : Exchange.sendMessage exName (some rq) pending freshId message options =
      .ok { frame := { exchange := exName,
                       routingKey := (mergePublishOptions options).key,
                       body := Exchange.encodeMessage message (mergePublishOptions options).contentType,
                       opts := { mergePublishOptions options with
                                   replyTo := rq.name, correlationId := some freshId,
                                   reply := none } },
            pendingReplies := (freshId, cb) :: pending } := by
    simp only [Exchange.sendMessage, hm]
  exact ⟨_, heq, rfl, rfl, rfl, rfl, by simp [recordGet]⟩

/-- Witness for C3: `publish_with_reply_callback` at a concrete publish with
a reply callback. -/
theorem publish_with_reply_callback_witness :
    ∃ out,
      Exchange.sendMessage "amq.direct" (some { name := some "amq.gen-reply" }) [] "uuid-1"
        (.vStr "hi") { key := some "rpc", reply := some 7 } = .ok out ∧
      out.frame.opts.correlationId = some "uuid-1" ∧
      out.frame.opts.replyTo = some "amq.gen-reply" ∧
      out.frame.opts.reply = none ∧
      out.pendingReplies = [("uuid-1", 7)] ∧
      recordGet out.pendingReplies (some "uuid-1") = some 7 :=
  publish_with_reply_callback "amq.direct" { name := some "amq.gen-reply" } [] "uuid-1"
    (.vStr "hi") { key := some "rpc", reply := some 7 } 7 rfl

/-! ## C4 — pending-reply callbacks are not one-shot -/

/-- C4 counterexample: with the pending-reply table holding callback `7`
under `"id-1"`, two consecutive reply-queue deliveries with that same
correlation id invoke the callback twice, and the entry is still in the
table afterwards — refuting the claimed one-shot removal. -/
theorem pending_reply_counterexample :
    (Exchange.onReply
        (Exchange.onReply { pendingReplies := [("id-1", 7)], calls := [] }
          (some "id-1") (.vStr "a"))
        (some "id-1") (.vStr "b")).calls = [(7, .vStr "a"), (7, .vStr "b")] ∧
    (Exchange.onReply
        (Exchange.onReply { pendingReplies := [("id-1", 7)], calls := [] }
          (some "id-1") (.vStr "a"))
        (some "id-1") (.vStr "b")).pendingReplies = [("id-1", 7)] := by
  constructor <;> rfl

/-- C4 (amended): when a message arrives on the reply queue whose
correlation id matches an entry, that entry's callback is invoked with the
decoded data, but the entry is **not** removed from the table — a second
message with the same correlation id invokes the callback again; a reply
whose correlation id matches no entry is silently ignored with no error. -/
theorem pending_reply_matched_not_removed (s : ReplyDispatch) (cid : String) (cb : Nat)
    (first secnd : JsValue) (h : recordGet s.pendingReplies (some cid) = some cb) :
    (Exchange.onReply s (some cid) first).calls = s.calls ++ [(cb, first)] ∧
    (Exchange.onReply s (some cid) first).pendingReplies = s.pendingReplies ∧
    (Exchange.onReply (Exchange.onReply s (some cid) first) (some cid) secnd).calls
        = s.calls ++ [(cb, first), (cb, secnd)] ∧
    (∀ other data, recordGet s.pendingReplies other = none →
        Exchange.onReply s other data = s) := by
  refine ⟨?_, ?_, ?_, ?_⟩
  · simp [Exchange.onReply, h]
  · simp [Exchange.onReply, h]
  · simp [Exchange.onReply, h]
  · intro other data hnone
    simp [Exchange.onReply, hnone]

/-- Witness for C4 (amended): `pending_reply_matched_not_removed` at the
one-entry table, matched twice and probed with an unknown id. -/
theorem pending_reply_matched_not_removed_witness :
    (Exchange.onReply { pendingReplies := [("id-1", 7)], calls := [] }
        (some "id-1") (.vStr "a")).calls = [] ++ [(7, .vStr "a")] ∧
    (Exchange.onReply { pendingReplies := [("id-1", 7)], calls := [] }
        (some "id-1") (.vStr "a")).pendingReplies = [("id-1", 7)] ∧
    (Exchange.onReply
        (Exchange.onReply { pendingReplies := [("id-1", 7)], calls := [] }
          (some "id-1") (.vStr "a"))
        (some "id-1") (.vStr "b")).calls = [] ++ [(7, .vStr "a"), (7, .vStr "b")] ∧
    (∀ other data,
        recordGet ({ pendingReplies := [("id-1", 7)], calls := [] } : ReplyDispatch).pendingReplies
          other = none →
        Exchange.onReply { pendingReplies := [("id-1", 7)], calls := [] } other data
          = { pendingReplies := [("id-1", 7)], calls := [] }) :=
  pending_reply_matched_not_removed { pendingReplies := [("id-1", 7)], calls := [] }
    "id-1" 7 (.vStr "a") (.vStr "b") (by decide)

/-! ## C5 — `ack` and the reply publish -/

/-- C5 counterexample: on a message carrying truthy `replyTo` and
`correlationId` with a non-JSON content type, `ack` invoked with a
non-`Buffer` payload hits the `throw` branch of `Queue.encodeMessage`
(src/queue.ts 140), so the exception escapes and the underlying message is
**not** acknowledged — refuting the claim's unconditional "calling ack
acknowledges the underlying message". -/
theorem ack_encode_throws_counterexample :
    Queue.ackMessage
        { properties := { contentType := some "text/plain", replyTo := some "reply.q",
                          correlationId := some "c1" },
          content := { bytes := [104, 105], parsed := none } }
        (some (.vStr "hello"))
      = [.thrownOp "Unsupported message type for encoding"] ∧
    ChannelOp.ackOp ∉
      Queue.ackMessage
        { properties := { contentType := some "text/plain", replyTo := some "reply.q",
                          correlationId := some "c1" },
          content := { bytes := [104, 105], parsed := none } }
        (some (.vStr "hello")) := by
  constructor
  · rfl
  · decide

/-- C5 (amended): `ack` acknowledges the underlying message whenever no
reply-encoding step throws.  When the message's `replyTo` and
`correlationId` are not both truthy, `ack` only acknowledges.  When both are
truthy and the payload encodes successfully per the message's content type
(JSON content with a defined payload, or a `Buffer` payload otherwise), the
encoded payload is published to the nameless default exchange with routing
key `replyTo`, the same correlation id and content type, *before* the
acknowledgment.  When both are truthy but encoding throws (non-JSON content
with a non-`Buffer` payload, or JSON with an `undefined` payload), the
exception escapes and the message is not acknowledged. -/
theorem ack_publishes_reply_then_acks (msg : AmqpMessage) (reply : Option JsValue) :
    ((jsTruthyStr msg.properties.replyTo = false ∨
        jsTruthyStr msg.properties.correlationId = false) →
      Queue.ackMessage msg reply = [.ackOp]) ∧
    (∀ rt cid body,
      msg.properties.replyTo = some rt → msg.properties.correlationId = some cid →
      rt ≠ "" → cid ≠ "" →
      Queue.encodeMessage (reply.getD .vUndefined) msg.properties.contentType = .ok body →
      Queue.ackMessage msg reply =
        [.publishOp "" rt body cid msg.properties.contentType, .ackOp]) ∧
    (∀ e,
      jsTruthyStr msg.properties.replyTo = true →
      jsTruthyStr msg.properties.correlationId = true →
      Queue.encodeMessage (reply.getD .vUndefined) msg.properties.contentType = .error e →
      Queue.ackMessage msg reply = [.thrownOp e]) := by
  refine ⟨?_, ?_, ?_⟩
  · intro hfalse
    rcases hfalse with hf | hf <;> simp [Queue.ackMessage, hf]
  · intro rt cid body hrt hcid hrtne hcidne henc
    simp [Queue.ackMessage, hrt, hcid, jsTruthyStr, hrtne, hcidne, henc]
  · intro e htrt htcid henc
    simp [Queue.ackMessage, htrt, htcid, henc]

/-- Witness for C5 (amended): a JSON request/reply message acknowledged with
a string payload — the reply publish precedes the ack — and a plain message
with no reply address — bare ack. -/
theorem ack_publishes_reply_then_acks_witness :
    Queue.ackMessage
        { properties := { contentType := some "application/json", replyTo := some "reply.q",
                          correlationId := some "c1" },
          content := { bytes := [], parsed := some (.vStr "req") } }
        (some (.vStr "result"))
      = [.publishOp "" "reply.q" (.jsonBuffer (.vStr "result")) "c1" (some "application/json"),
         .ackOp] ∧
    Queue.ackMessage
        { properties := { contentType := some "application/json", replyTo := none,
                          correlationId := none },
          content := { bytes := [], parsed := some (.vStr "req") } }
        none
      = [.ackOp] :=
  ⟨(ack_publishes_reply_then_acks
      { properties := { contentType := some "application/json", replyTo := some "reply.q",
                        correlationId := some "c1" },
        content := { bytes := [], parsed := some (.vStr "req") } }
      (some (.vStr "result"))).2.1
      "reply.q" "c1" (.jsonBuffer (.vStr "result")) rfl rfl (by decide) (by decide) rfl,
   (ack_publishes_reply_then_acks
      { properties := { contentType := some "application/json", replyTo := none,
                        correlationId := none },
        content := { bytes := [], parsed := some (.vStr "req") } }
      none).1 (Or.inl rfl)⟩

/-! ## C6 — malformed JSON body -/

/-- C6: at the failing input — a delivery whose `contentType` is
`application/json` and whose body is not valid JSON — the rewritten
`Queue.parseMessage` (src/queue.ts 144–150) has no try/catch, so the
`JSON.parse` `SyntaxError` escapes the delivery handler; the legacy
`lib/queue.js` handler instead emits the local
`"unable to parse message as JSON"` error signal and drops the message
(no callback, no ack, no nack), which is what the claim and the spec
describe. -/
theorem malformed_json_throws_divergence :
    Queue.onMessage
        (some { properties := { contentType := some "application/json", replyTo := none,
                                correlationId := none },
                content := { bytes := [123], parsed := none } })
      = .thrown "SyntaxError: unexpected token" ∧
    legacyOnMessage
        { properties := { contentType := some "application/json", replyTo := none,
                          correlationId := none },
          content := { bytes := [123], parsed := none } }
      = (.dropped, [.errorSignal "unable to parse message as JSON"]) := by
  constructor <;> rfl

/-! ## C7 — "bound" after all bindings -/

theorem bindKeysResult_cons (binds : String → Except String Unit) (k : String)
    (ks : List String) :
    bindKeysResult binds (k :: ks) =
      match binds k with
      | .error e => .error e
      | .ok _ => bindKeysResult binds ks := rfl

theorem bindKeysResult_ok_iff (binds : String → Except String Unit) (keys : List String) :
    bindKeysResult binds keys = .ok () ↔ ∀ k ∈ keys, binds k = .ok () := by
  induction keys with
  | nil => simp [bindKeysResult]
  | cons k ks ih =>
    rw [bindKeysResult_cons]
    cases hbk : binds k with
    | error e => simp [hbk]
    | ok u => cases u; simp [hbk, ih]

/-- C7: on a non-nameless exchange, the binding phase of one queue creation
emits the queue's `"bound"` exactly once when every resolved routing key's
`bindQueue` succeeded; `"bound"` is emitted only if all of them succeeded;
and if any single binding fails, `"bound"` is never emitted and the failure
propagates through `bail`, emitting the exchange's `"close"` — no
partial-bind state is observable. -/
theorem bound_emitted_iff_all_bindings_succeed (exName : String)
    (binds : String → Except String Unit) (keys : Option (List String)) (key : Option String)
    (h : exName ≠ "") :
    ((∀ k ∈ resolveBindingKeys keys key, binds k = .ok ()) →
      Exchange.onQueueReady exName binds keys key = [.boundEvt]) ∧
    (BindEvent.boundEvt ∈ Exchange.onQueueReady exName binds keys key →
      ∀ k ∈ resolveBindingKeys keys key, binds k = .ok ()) ∧
    (∀ k e, k ∈ resolveBindingKeys keys key → binds k = .error e →
      BindEvent.boundEvt ∉ Exchange.onQueueReady exName binds keys key ∧
      ∃ cause, Exchange.onQueueReady exName binds keys key = [.closeEvt cause]) := by
  unfold Exchange.onQueueReady
  simp only [h, if_false]
  cases hres : bindKeysResult binds (resolveBindingKeys keys key) with
  | ok u =>
    cases u
    have hall := (bindKeysResult_ok_iff binds (resolveBindingKeys keys key)).mp hres
    refine ⟨fun _ => rfl, fun _ => hall, ?_⟩
    intro k e hk hbk
    exact absurd (hall k hk) (by simp [hbk])
  | error e =>
    refine ⟨?_, ?_, ?_⟩
    · intro hall
      have : bindKeysResult binds (resolveBindingKeys keys key) = .ok () :=
        (bindKeysResult_ok_iff binds (resolveBindingKeys keys key)).mpr hall
      rw [hres] at this
      exact absurd this (by simp)
    · intro hmem
      simp at hmem
    · intro k ke hk hbk
      exact ⟨by simp, e, rfl⟩

/-- Witness for C7: three keys that all bind successfully emit `"bound"`
once; a key set containing one failing binding emits no `"bound"` and routes
to the exchange's `"close"`. -/
theorem bound_emitted_iff_all_bindings_succeed_witness :
    Exchange.onQueueReady "amq.direct" (fun k => if k = "bad" then .error "denied" else .ok ())
        (some ["a", "b", "c"]) none = [.boundEvt] ∧
    (BindEvent.boundEvt ∉
        Exchange.onQueueReady "amq.direct" (fun k => if k = "bad" then .error "denied" else .ok ())
          (some ["a", "bad"]) none ∧
      ∃ cause,
        Exchange.onQueueReady "amq.direct" (fun k => if k = "bad" then .error "denied" else .ok ())
          (some ["a", "bad"]) none = [.closeEvt cause]) :=
  ⟨(bound_emitted_iff_all_bindings_succeed "amq.direct"
      (fun k => if k = "bad" then .error "denied" else .ok ()) (some ["a", "b", "c"]) none
      (by decide)).1
      (by intro k hk; simp only [resolveBindingKeys] at hk; fin_cases hk <;> rfl),
   (bound_emitted_iff_all_bindings_succeed "amq.direct"
      (fun k => if k = "bad" then .error "denied" else .ok ()) (some ["a", "bad"]) none
      (by decide)).2.2 "bad" "denied" (by decide) (by simp)⟩

/-! ## C9 — connection-manager close -/

/-- C9 counterexample: `close` called on a manager whose connection is not
yet established (`jackrabbit(url).close(cb)` before `"connected"`):
`this.#connection?.close(…)` short-circuits, so **no** `"close"`
notification is ever emitted and the completion handler is never invoked —
refuting the claim's "exactly one close notification for every connection
manager on which close is called". -/
theorem close_without_connection_counterexample :
    (Jackrabbit.closeRun { connection := none } none none true).2 = [] ∧
    (Jackrabbit.closeRun { connection := none } none none true).2.count .closeEvt = 0 := by
  exact ⟨rfl, rfl⟩

/-- C9 (amended): on a manager whose connection **is** established, `close`
emits exactly one `"close"` notification regardless of whether the
underlying close reported an error, the emission comes right after the
caller-supplied completion handler is invoked with that error, and the
internal connection reference is cleared (by the `#bail` handler the manager
registered on the connection's own `"close"` event) — in either order of the
two amqplib callbacks.  A `close` on a manager with no connection does
nothing. -/
theorem close_clears_and_emits_once (s : JackState) (err bailErr : Option String)
    (callbackFirst : Bool) (c : Unit) (h : s.connection = some c) :
    (Jackrabbit.closeRun s err bailErr callbackFirst).1.connection = none ∧
    (Jackrabbit.closeRun s err bailErr callbackFirst).2.count .closeEvt = 1 ∧
    (∃ i, (Jackrabbit.closeRun s err bailErr callbackFirst).2.get? i
            = some (.callbackCall err) ∧
          (Jackrabbit.closeRun s err bailErr callbackFirst).2.get? (i + 1)
            = some .closeEvt) := by
  rcases s with ⟨conn⟩
  simp only at h
  subst h
  cases callbackFirst
  · refine ⟨rfl, ?_, 1, rfl, rfl⟩
    simp [Jackrabbit.closeRun, List.count_cons]
  · refine ⟨rfl, ?_, 0, rfl, rfl⟩
    simp [Jackrabbit.closeRun, List.count_cons]

/-- Witness for C9 (amended): a connected manager closed with an error
reported by the underlying close — one `"close"`, right after the completion
handler saw the error, and the reference cleared. -/
theorem close_clears_and_emits_once_witness :
    (Jackrabbit.closeRun { connection := some () } (some "boom") none true).1.connection = none ∧
    (Jackrabbit.closeRun { connection := some () } (some "boom") none true).2.count .closeEvt = 1 ∧
    (∃ i, (Jackrabbit.closeRun { connection := some () } (some "boom") none true).2.get? i
            = some (.callbackCall (some "boom")) ∧
          (Jackrabbit.closeRun { connection := some () } (some "boom") none true).2.get? (i + 1)
            = some .closeEvt) :=
  close_clears_and_emits_once { connection := some () } (some "boom") none true () rfl

/-! ## C10 — falsy decoded bodies -/

/-- C10 counterexample: a consumed message with a non-JSON content type and
an **empty raw body** decodes to an empty `Buffer`, which is a JS object and
therefore truthy, so the consumer callback **is** invoked with it — refuting
the claim that an empty raw body is silently dropped like the falsy JSON
decodes. -/
theorem empty_raw_body_delivered_counterexample :
    Queue.onMessage
        (some { properties := { contentType := none, replyTo := none, correlationId := none },
                content := { bytes := [], parsed := none } })
      = .delivered (.vBuffer []) := rfl

/-- C10 (amended): a consumed JSON message whose body decodes to a falsy
value (the JSON texts `null`, `0`, `false`, `""`) is silently dropped — the
consumer callback is not invoked and the message is neither ack'd nor
nack'd — exactly like a malformed message; a message with any other content
type, however, decodes to its raw `Buffer`, which is truthy even when empty,
so the callback is always invoked for raw bodies. -/
theorem falsy_json_dropped_raw_delivered (m : AmqpMessage) :
    (∀ v, m.properties.contentType = some "application/json" → m.content.parsed = some v →
      v.truthy = false → Queue.onMessage (some m) = .dropped) ∧
    (m.properties.contentType ≠ some "application/json" →
      Queue.onMessage (some m) = .delivered (.vBuffer m.content.bytes)) := by
  constructor
  · intro v hct hp hf
    simp [Queue.onMessage, Queue.parseMessage, hct, jsonParse, hp, hf]
  · intro hct
    simp [Queue.onMessage, Queue.parseMessage, hct, jsonParse, JsValue.truthy]

/-- Witness for C10 (amended): the JSON text `null` is dropped; a one-byte
raw body is delivered to the callback as its `Buffer`. -/
theorem falsy_json_dropped_raw_delivered_witness :
    Queue.onMessage
        (some { properties := { contentType := some "application/json", replyTo := none,
                                correlationId := none },
                content := { bytes := [110, 117, 108, 108], parsed := some .vNull } })
      = .dropped ∧
    Queue.onMessage
        (some { properties := { contentType := some "text/plain", replyTo := none,
                                correlationId := none },
                content := { bytes := [104], parsed := none } })
      = .delivered (.vBuffer [104]) :=
  ⟨(falsy_json_dropped_raw_delivered
      { properties := { contentType := some "application/json", replyTo := none,
                        correlationId := none },
        content := { bytes := [110, 117, 108, 108], parsed := some .vNull } }).1
      .vNull rfl rfl rfl,
   (falsy_json_dropped_raw_delivered
      { properties := { contentType := some "text/plain", replyTo := none,
                        correlationId := none },
        content := { bytes := [104], parsed := none } }).2 (by decide)⟩
